import Mathlib

/-!
# ModificationsMenu

A shallow embedding of `src/app/components/ModificationsMenu.jsx`: the merge of
blueprint features with module properties (`_renderModifications`,
`_mkModification`), the selection of what `render` shows, the click handlers and
the roll-quality cells.

JavaScript records are association lists of their own properties in iteration
order; a property read `o[k]` looks at the own properties first and then at the
members every plain record inherits from `Object.prototype`, and yields
`undefined` when neither has the key.  Numbers are rationals (every finite double
is one, and `===` and `%` are exact on doubles) together with `NaN`.
-/

namespace ModificationsMenu

/-! ## JavaScript values -/

/-- A JavaScript value, as far as `Boolean(v)` and `!v` can tell values apart. -/
inductive JsVal where
  | undefined
  | null
  | bool (b : Bool)
  | num (q : ℚ)
  | nan
  | str (s : String)
  | obj (ref : Nat)
deriving DecidableEq

/-- The result of `Boolean(v)`: `undefined`, `null`, `false`, `0`, `NaN` and `''` are falsy. -/
def JsVal.truthy : JsVal → Bool
  | .undefined => false
  | .null => false
  | .bool b => b
  | .num q => decide (q ≠ 0)
  | .nan => false
  | .str s => decide (s ≠ "")
  | .obj _ => true

/-- A plain record: own enumerable string-keyed properties in iteration order. -/
abbrev JsObject := List (String × JsVal)

/-- The function `keys` of lodash: the own property names, in iteration order. -/
def keys (o : JsObject) : List String := o.map Prod.fst

/-- The names of the members a plain record inherits from `Object.prototype`; each of them
is a function, or for `__proto__` the prototype itself. -/
def objectPrototypeNames : List String :=
  ["constructor", "hasOwnProperty", "isPrototypeOf", "propertyIsEnumerable", "toLocaleString",
   "toString", "valueOf", "__proto__", "__defineGetter__", "__defineSetter__",
   "__lookupGetter__", "__lookupSetter__"]

/-- The property read `o[k]` on a plain record: the own property, else the inherited member,
else `undefined`. -/
def JsObject.get (o : JsObject) (k : String) : JsVal :=
  match o.lookup k with
  | some v => v
  | none => if k ∈ objectPrototypeNames then JsVal.obj 0 else JsVal.undefined

/-! ## Collaborators of the component -/

/-- The function that `_mkModification` hands to a `Modification` as `onSet`. -/
inductive Setter where
  | moduleSet
  | mapped (setter : Nat)
deriving DecidableEq

/-- An entry of the `SHOW` table of `StatsMapping`: the name shown instead, and its setter. -/
structure ShowEntry where
  as : String
  setter : Nat
deriving DecidableEq

/-- What `_mkModification` reads from `this.props` and `this.context`, and the `SHOW` table. -/
structure Env where
  SHOW : List (String × ShowEntry)
  propsToShow : JsObject
  translate : String → String

/-- The React elements that `_mkModification` creates. -/
inductive Element where
  | th (key : String) (label : String)
  | Modification (key : String) (property : String) (onSet : Setter) (highlight : Bool)
      (showProp : JsVal)
deriving DecidableEq

/-- The attribute name and the highlight flag an element carries, for a `Modification`. -/
def Element.entry : Element → Option (String × Bool)
  | .th _ _ => none
  | .Modification _ property _ highlight _ => some (property, highlight)

/-- What can go wrong while rendering. -/
inductive Error where
  | CatalogLookupError
  | TypeError
deriving DecidableEq

/-- The array `_mkModification` returns: a header row and a `Modification`. -/
def modificationRows (env : Env) (property : String) (onSet : Setter) (highlight : Bool) :
    List Element :=
  [Element.th ("th-" ++ property) (env.translate property),
   Element.Modification property property onSet highlight (env.propsToShow.get property)]

/-- The method `_mkModification(property, highlight)`.  An own entry of `SHOW` replaces the
property and its setter.  For a property that names a member `SHOW` inherits from
`Object.prototype`, `mapped` is that member, which is truthy and has no `setter`, and
`mapped.setter.bind` throws. -/
def _mkModification (env : Env) (property : String) (highlight : Bool) :
    Except Error (List Element) :=
  match env.SHOW.lookup property with
  | some mapped => .ok (modificationRows env mapped.as (Setter.mapped mapped.setter) highlight)
  | none =>
    if property ∈ objectPrototypeNames then .error .TypeError
    else .ok (modificationRows env property Setter.moduleSet highlight)

/-! ## The roll quality -/

/-- A value of `state.blueprintProgress`: a number, `NaN`, or `undefined`. -/
inductive Progress where
  | undefined
  | nan
  | num (q : ℚ)
deriving DecidableEq

/-- The conversion `ToNumber` on these values: `undefined` becomes `NaN`. -/
def Progress.toNumber : Progress → Progress
  | .undefined => .nan
  | p => p

/-- Strict equality `a === b`: `NaN` equals nothing, `undefined` only itself. -/
def Progress.strictEq : Progress → Progress → Bool
  | .undefined, .undefined => true
  | .num a, .num b => decide (a = b)
  | _, _ => false

/-- The integer part of a rational, rounding towards zero. -/
def truncate (q : ℚ) : ℤ := if 0 ≤ q then ⌊q⌋ else ⌈q⌉

/-- The remainder `n % d` of JavaScript: `NaN` when an operand is `NaN` or the divisor is
zero, otherwise `n - d * q` with `q` the quotient rounded towards zero. -/
def Progress.rem (n d : Progress) : Progress :=
  match n.toNumber, d.toNumber with
  | .num a, .num b => if b = 0 then .nan else .num (a - b * (truncate (a / b) : ℚ))
  | _, _ => .nan

/-- The `active` flags of the four clickable cells of the roll row, in the order of the
source: `0%`, `50%`, `100%`, `random`. -/
structure RollCells where
  worst : Bool
  half : Bool
  best : Bool
  random : Bool
deriving DecidableEq

/-- The `active` class of each cell, computed from `blueprintProgress`. -/
def rollCells (blueprintProgress : Progress) : RollCells where
  worst := blueprintProgress.strictEq (.num 0)
  half := blueprintProgress.strictEq (.num (1 / 2))
  best := blueprintProgress.strictEq (.num 1)
  random := !((blueprintProgress.rem (.num (1 / 2))).strictEq (.num 0))

/-- How many of the four cells are active. -/
def RollCells.activeCount (c : RollCells) : Nat :=
  c.worst.toNat + c.half.toNat + c.best.toNat + c.random.toNat

/-! ## The module facade and the catalog -/

/-- Modelled from the spec: the Item Mutation Facade (the ed-forge module object `m` of the
props, whose code is not among the sources).  It owns the current template, grade, special
effect and roll quality; `setBlueprint` stores template, grade and the seed quality,
`setExperimental` stores or clears the effect, `setBlueprintProgress` stores the value and
`resetEngineering` clears all four. -/
structure Facade where
  item : String
  blueprint : Option String
  grade : Option Nat
  progress : Progress
  experimental : Option String
  applicableBlueprints : List String
  applicableExperimentals : List String
deriving DecidableEq

/-- The value a getter returning a string or `undefined` yields. -/
def optStr : Option String → JsVal
  | some s => .str s
  | none => .undefined

/-- The commands the component issues on the facade. -/
inductive Command where
  | setBlueprint (blueprint : String) (grade : Nat) (progress : Progress)
  | setExperimental (special : Option String)
  | setBlueprintProgress (progress : Progress)
  | resetEngineering
deriving DecidableEq

/-- Modelled from the spec: what a command of the Item Mutation Facade does to the item. -/
def Facade.exec (m : Facade) : Command → Facade
  | .setBlueprint b g p => { m with blueprint := some b, grade := some g, progress := p }
  | .setExperimental s => { m with experimental := s }
  | .setBlueprintProgress p => { m with progress := p }
  | .resetEngineering =>
    { m with blueprint := none, grade := none, progress := .undefined, experimental := none }

/-- The result of `getBlueprintInfo`: per grade, the table of features. -/
structure BlueprintInfo where
  features : List (Nat × JsObject)

/-- The result of `getModuleInfo`: the table of properties of the item. -/
structure ModuleInfo where
  props : JsObject

/-- The two catalog functions imported from ed-forge.  The argument of `getBlueprintInfo` is
what `m.getBlueprint()` returns, a name or `undefined` (`none`); a result `none` stands for a
lookup that yields no record to read from. -/
structure Catalog where
  getBlueprintInfo : Option String → Option BlueprintInfo
  getModuleInfo : String → Option ModuleInfo

/-! ## The merge of blueprint features and module properties -/

/-- The method `_renderModifications`: the rows of every feature of the applied blueprint
grade, highlighted, then the rows of every module property `prop` for which
`!blueprintFeatures[prop]` holds.  With no table for the grade, `keys` yields no feature and
the read `blueprintFeatures[prop]` throws as soon as the module has a property. -/
def _renderModifications (cat : Catalog) (env : Env) (m : Facade) :
    Except Error (List Element) :=
  match cat.getBlueprintInfo m.blueprint with
  | none => .error .CatalogLookupError
  | some info =>
    let blueprintFeatures : Option JsObject := m.grade.bind info.features.lookup
    let featureKeys : List String :=
      match blueprintFeatures with
      | some o => keys o
      | none => []
    match featureKeys.mapM (fun feature => _mkModification env feature true) with
    | .error e => .error e
    | .ok pairs =>
      let blueprintModifications : List Element :=
        (pairs.filter (fun (pair : List Element) => (pair.get? 1).isSome)).flatten
      match cat.getModuleInfo m.item with
      | none => .error .CatalogLookupError
      | some info =>
        match blueprintFeatures with
        | none =>
          if keys info.props = [] then .ok (blueprintModifications ++ [])
          else .error .TypeError
        | some o =>
          match ((keys info.props).filter (fun prop => !(o.get prop).truthy)).mapM
              (fun prop => _mkModification env prop false) with
          | .error e => .error e
          | .ok pairs => .ok (blueprintModifications ++ pairs.flatten)

/-! ## The component -/

/-- Modelled from the spec: the getter `m.getBlueprint()` of the facade. -/
def Facade.getBlueprint (m : Facade) : JsVal := optStr m.blueprint

/-- Modelled from the spec: the getter `m.getExperimental()` of the facade. -/
def Facade.getExperimental (m : Facade) : JsVal := optStr m.experimental

/-- Modelled from the spec: the getter `m.getBlueprintProgress()` of the facade. -/
def Facade.getBlueprintProgress (m : Facade) : Progress := m.progress

/-- The React state of the component. -/
structure State where
  blueprintProgress : Progress
  blueprintMenuOpened : Bool
  specialMenuOpened : Bool
deriving DecidableEq

/-- An instance of the component: the facade of its props, its state, and the two fields
holding the element to focus, named by its `data-id`.  The fields change where a handler
assigns them; the `ref` callbacks that React runs when it commits a render are recorded in
the view (`Clickable.ref`) and not run. -/
structure Component where
  m : Facade
  state : State
  selectedModRef : Option String
  selectedSpecialRef : Option String
deriving DecidableEq

/-- The constructor of the component. -/
def constructor (m : Facade) : Component where
  m := m
  state :=
    { blueprintProgress := m.getBlueprintProgress
      blueprintMenuOpened := !m.getBlueprint.truthy
      specialMenuOpened := false }
  selectedModRef := none
  selectedSpecialRef := none

/-- The three things `render` can show. -/
inductive Mode where
  | TEMPLATE_PICK
  | SPECIAL_PICK
  | ATTRIBUTE_VIEW
deriving DecidableEq

/-- The case that the `switch (true)` of `render` selects. -/
def mode (m : Facade) (state : State) : Mode :=
  if !m.getBlueprint.truthy || state.blueprintMenuOpened then .TEMPLATE_PICK
  else if state.specialMenuOpened then .SPECIAL_PICK
  else .ATTRIBUTE_VIEW

/-- The clicks the component handles; `random` carries the value `Math.random()` returns. -/
inductive Event where
  | chooseBlueprint (blueprint : String) (grade : Nat)
  | chooseSpecial (special : Option String)
  | toggleBlueprintsMenu
  | toggleSpecialsMenu
  | reset
  | worst
  | half
  | best
  | random (draw : ℚ)
deriving DecidableEq

/-- A clickable entry of a picker: its `data-id`, its `active` class, whether a `ref`
callback is attached, and the click it handles. -/
structure Clickable where
  dataId : String
  active : Bool
  ref : Bool
  onClick : Event
deriving DecidableEq

/-- The method `_renderBlueprints`: per applicable blueprint its translated name and one
entry per grade of `info.features`. -/
def _renderBlueprints (cat : Catalog) (env : Env) (m : Facade) :
    Except Error (List (String × List Clickable)) :=
  m.applicableBlueprints.mapM (fun blueprint =>
    match cat.getBlueprintInfo (some blueprint) with
    | none => Except.error Error.CatalogLookupError
    | some info =>
      let blueprintGrades : List Clickable := (info.features.map Prod.fst).map (fun grade =>
        let active := decide (m.blueprint = some blueprint) && decide (m.grade = some grade)
        { dataId := blueprint ++ ":" ++ toString grade
          active := active
          ref := active
          onClick := Event.chooseBlueprint blueprint grade })
      Except.ok (env.translate blueprint, blueprintGrades))

/-- The method `_renderSpecials`: one entry per applicable experimental and, when there is
at least one, the entry `none` in front. -/
def _renderSpecials (m : Facade) : List Clickable :=
  let applied := m.experimental
  let experimentals : List Clickable := m.applicableExperimentals.map (fun experimental =>
    let active := decide (some experimental = applied)
    { dataId := experimental
      active := active
      ref := active
      onClick := Event.chooseSpecial (some experimental) })
  if experimentals.length ≠ 0 then
    { dataId := "none"
      active := false
      ref := !(optStr applied).truthy
      onClick := Event.chooseSpecial none } :: experimentals
  else experimentals

/-- What `render` puts into the component. -/
inductive View where
  | blueprints (groups : List (String × List Clickable))
  | specials (items : List Clickable)
  | modifications (blueprintsMenu : String) (specialsMenu : Option String) (cells : RollCells)
      (rows : List Element)
deriving DecidableEq

/-- The method `render`. -/
def render (cat : Catalog) (env : Env) (c : Component) : Except Error View :=
  match mode c.m c.state with
  | .TEMPLATE_PICK => (_renderBlueprints cat env c.m).map View.blueprints
  | .SPECIAL_PICK => .ok (.specials (_renderSpecials c.m))
  | .ATTRIBUTE_VIEW =>
    let blueprintsMenu := env.translate (c.m.blueprint.getD "")
    let specialsMenu : Option String :=
      if c.m.applicableExperimentals.length ≠ 0 then
        some (if c.m.getExperimental.truthy then c.m.experimental.getD ""
          else env.translate "PHRASE_SELECT_SPECIAL")
      else none
    (_renderModifications cat env c.m).map
      (View.modifications blueprintsMenu specialsMenu (rollCells c.state.blueprintProgress))

/-- Whether the view has an element whose `onClick` is the given click. -/
def View.offers : View → Event → Bool
  | .blueprints groups, ev => groups.any (fun g => g.2.any (fun li => decide (li.onClick = ev)))
  | .specials items, ev => items.any (fun it => decide (it.onClick = ev))
  | .modifications _ _ _ _, .toggleBlueprintsMenu => true
  | .modifications _ specialsMenu _ _, .toggleSpecialsMenu => specialsMenu.isSome
  | .modifications _ _ _ _, .reset => true
  | .modifications _ _ _ _, .worst => true
  | .modifications _ _ _ _, .half => true
  | .modifications _ _ _ _, .best => true
  | .modifications _ _ _ _, .random draw => decide (0 ≤ draw ∧ draw < 1)
  | .modifications _ _ _ _, _ => false

/-- The argument of a `setState` call: the keys it names. -/
structure StatePatch where
  blueprintProgress : Option Progress := none
  blueprintMenuOpened : Option Bool := none
  specialMenuOpened : Option Bool := none
deriving DecidableEq

/-- The statements of a click handler. -/
inductive Effect where
  | command (c : Command)
  | setSelectedModRef (ref : Option String)
  | setSelectedSpecialRef (ref : Option String)
  | tooltip
  | setState (patch : StatePatch)
deriving DecidableEq

/-- The method `_toggleBlueprintsMenu`. -/
def _toggleBlueprintsMenu (state : State) : List Effect :=
  [.setState { blueprintMenuOpened := some (!state.blueprintMenuOpened) }]

/-- The method `_toggleSpecialsMenu`. -/
def _toggleSpecialsMenu (state : State) : List Effect :=
  [.setState { specialMenuOpened := some (!state.specialMenuOpened) }]

/-- The callback that `_specialSelected(special)` creates; `none` is the argument
`undefined` of the entry `none`. -/
def _specialSelected (special : Option String) : List Effect :=
  [.command (.setExperimental special),
   .setState { specialMenuOpened := some false }]

/-- The click handlers, statement by statement: the `onClick` of a grade entry, the callback
of `_specialSelected`, `_toggleBlueprintsMenu`, `_toggleSpecialsMenu`, the `onClick` of the
reset entry and those of the four roll cells. -/
def onClick (state : State) : Event → List Effect
  | .chooseBlueprint blueprint grade =>
    [.command (.setBlueprint blueprint grade (.num 1)),
     .setState { blueprintMenuOpened := some false, specialMenuOpened := some true }]
  | .chooseSpecial special => _specialSelected special
  | .toggleBlueprintsMenu => _toggleBlueprintsMenu state
  | .toggleSpecialsMenu => _toggleSpecialsMenu state
  | .reset =>
    [.command .resetEngineering,
     .setSelectedModRef none,
     .setSelectedSpecialRef none,
     .tooltip,
     .setState { blueprintMenuOpened := some true, blueprintProgress := some .undefined }]
  | .worst =>
    [.command (.setBlueprintProgress (.num 0)),
     .setState { blueprintProgress := some (.num 0) }]
  | .half =>
    [.command (.setBlueprintProgress (.num (1 / 2))),
     .setState { blueprintProgress := some (.num (1 / 2)) }]
  | .best =>
    [.command (.setBlueprintProgress (.num 1)),
     .setState { blueprintProgress := some (.num 1) }]
  | .random draw =>
    [.command (.setBlueprintProgress (.num draw)),
     .setState { blueprintProgress := some (.num draw) }]

/-- The commands a handler issues on the facade, in order. -/
def commands (effects : List Effect) : List Command :=
  effects.filterMap (fun e =>
    match e with
    | .command c => some c
    | _ => none)

/-- The merge `setState` performs: the keys the patch names replace those of the state. -/
def State.merge (s : State) (p : StatePatch) : State where
  blueprintProgress := p.blueprintProgress.getD s.blueprintProgress
  blueprintMenuOpened := p.blueprintMenuOpened.getD s.blueprintMenuOpened
  specialMenuOpened := p.specialMenuOpened.getD s.specialMenuOpened

/-- The effect of one statement of a handler on the component. -/
def Component.perform (c : Component) : Effect → Component
  | .command cmd => { c with m := c.m.exec cmd }
  | .setSelectedModRef r => { c with selectedModRef := r }
  | .setSelectedSpecialRef r => { c with selectedSpecialRef := r }
  | .tooltip => c
  | .setState p => { c with state := c.state.merge p }

/-- The component after the handler of a click has run. -/
def Component.dispatch (c : Component) (ev : Event) : Component :=
  (onClick c.state ev).foldl Component.perform c

/-- One click: it is handled when the rendered view has an element for it. -/
def step (cat : Catalog) (env : Env) (c : Component) (ev : Event) : Option Component :=
  match render cat env c with
  | .ok v => if v.offers ev then some (c.dispatch ev) else none
  | .error _ => none

/-- The components a freshly constructed one can become by clicks the view offers. -/
inductive Reachable (cat : Catalog) (env : Env) (m : Facade) : Component → Prop where
  | init : Reachable cat env m (constructor m)
  | click (c c' : Component) (ev : Event) :
      Reachable cat env m c → step cat env c ev = some c' → Reachable cat env m c'

/-! ## The display list in the words of the specification -/

/-- The display list as the specification words it: one entry per key of the delta table,
tagged template, then one entry per base key that is not a key of the delta table, tagged
base. -/
def computeDisplayList (delta base : JsObject) : List (String × Bool) :=
  (keys delta).map (fun k => (k, true)) ++
    ((keys base).filter (fun k => decide (k ∉ keys delta))).map (fun k => (k, false))

/-- The name under which `_mkModification` emits an attribute key. -/
def shownAs (env : Env) (property : String) : String :=
  match env.SHOW.lookup property with
  | some e => e.as
  | none => property

/-- The setter with which `_mkModification` emits an attribute key. -/
def setterFor (env : Env) (property : String) : Setter :=
  match env.SHOW.lookup property with
  | some e => Setter.mapped e.setter
  | none => Setter.moduleSet

/-- The attribute names of the `Modification` elements among the rows, in order. -/
def names (rows : List Element) : List String :=
  (rows.filterMap Element.entry).map Prod.fst

/-! ## Example data -/

/-- An environment without alternate display: `SHOW` is empty and `translate` is the
identity. -/
def plainEnv : Env where
  SHOW := []
  propsToShow := []
  translate := id

/-- An environment whose `SHOW` table shows an effectiveness as the resistance. -/
def resistanceEnv : Env where
  SHOW := [("kineticeffectiveness", { as := "kineticresistance", setter := 0 })]
  propsToShow := []
  translate := id

/-- The base attributes of the scenario of the specification. -/
def exampleProps : JsObject := [("damage", .num 10), ("range", .num 500)]

/-- A catalog with the template `Overcharged`, whose grade 3 has the given delta table, and
the item `laser` with the given base attributes. -/
def exampleCatalog (delta base : JsObject) : Catalog where
  getBlueprintInfo := fun b =>
    if b = some "Overcharged" then some { features := [(3, delta)] } else none
  getModuleInfo := fun i => if i = "laser" then some { props := base } else none

/-- The item `laser` without engineering, to which `Overcharged` and the given special
effects are applicable. -/
def plainLaser (experimentals : List String) : Facade where
  item := "laser"
  blueprint := none
  grade := none
  progress := .undefined
  experimental := none
  applicableBlueprints := ["Overcharged"]
  applicableExperimentals := experimentals

/-- The item `laser` with `Overcharged` grade 3 applied at the given roll quality. -/
def overchargedLaser (progress : Progress) (experimentals : List String) : Facade where
  item := "laser"
  blueprint := some "Overcharged"
  grade := some 3
  progress := progress
  experimental := none
  applicableBlueprints := ["Overcharged"]
  applicableExperimentals := experimentals

/-! ## The merge: lemmas -/

theorem mapM_ok {α β : Type} (f : α → Except Error β) (g : α → β) (l : List α)
    (h : ∀ x ∈ l, f x = .ok (g x)) : l.mapM f = .ok (l.map g) := by
  induction l with
  | nil => rfl
  | cons a l ih =>
    rw [List.mapM_cons, h a (List.mem_cons_self _ _),
      ih (fun x hx => h x (List.mem_cons_of_mem _ hx))]
    rfl

theorem mkModification_plain (env : Env) (k : String) (highlight : Bool)
    (hk : k ∉ objectPrototypeNames) :
    _mkModification env k highlight =
      .ok (modificationRows env (shownAs env k) (setterFor env k) highlight) := by
  unfold _mkModification shownAs setterFor
  cases env.SHOW.lookup k with
  | some e => rfl
  | none => simp only [if_neg hk]

theorem mapM_mkModification (env : Env) (ks : List String) (highlight : Bool)
    (hks : ∀ k ∈ ks, k ∉ objectPrototypeNames) :
    ks.mapM (fun k => _mkModification env k highlight) =
      .ok (ks.map (fun k => modificationRows env (shownAs env k) (setterFor env k) highlight)) :=
  mapM_ok _ _ ks (fun k hk => mkModification_plain env k highlight (hks k hk))

theorem filter_modificationRows (env : Env) (ks : List String) (highlight : Bool) :
    (ks.map (fun k => modificationRows env (shownAs env k) (setterFor env k) highlight)).filter
        (fun (pair : List Element) => (pair.get? 1).isSome) =
      ks.map (fun k => modificationRows env (shownAs env k) (setterFor env k) highlight) := by
  rw [List.filter_eq_self]
  intro pair hpair
  obtain ⟨k, _, rfl⟩ := List.mem_map.1 hpair
  rfl

theorem entries_modificationRows (env : Env) (ks : List String) (highlight : Bool) :
    ((ks.map (fun k => modificationRows env (shownAs env k) (setterFor env k)
        highlight)).flatten).filterMap Element.entry =
      ks.map (fun k => (shownAs env k, highlight)) := by
  induction ks with
  | nil => rfl
  | cons k ks ih =>
    rw [List.map_cons, List.flatten_cons, List.filterMap_append, ih]
    rfl

theorem lookup_isSome_iff_mem_keys (o : JsObject) (k : String) :
    (o.lookup k).isSome = true ↔ k ∈ keys o := by
  induction o with
  | nil => simp [keys]
  | cons kv o ih =>
    obtain ⟨k', v⟩ := kv
    by_cases h : k = k'
    · subst h
      simp [keys, List.lookup]
    · have hb : (k == k') = false := by simpa using h
      simp only [List.lookup, hb, keys, List.map_cons, List.mem_cons, h, false_or]
      exact ih

theorem lookup_mem (o : JsObject) (k : String) (v : JsVal) (h : o.lookup k = some v) :
    (k, v) ∈ o := by
  induction o with
  | nil => simp at h
  | cons kv o ih =>
    obtain ⟨k', w⟩ := kv
    by_cases hk : k = k'
    · subst hk
      simp [List.lookup] at h
      simp [h]
    · have hb : (k == k') = false := by simpa using hk
      simp only [List.lookup, hb] at h
      exact List.mem_cons_of_mem _ (ih h)

/-- For a table whose entries are all truthy and a key that names no inherited member, the
test `!blueprintFeatures[prop]` of the source holds exactly when the key is absent. -/
theorem get_truthy_plain (delta : JsObject) (k : String) (hk : k ∉ objectPrototypeNames)
    (htruthy : ∀ kv ∈ delta, kv.2.truthy = true) :
    (!(delta.get k).truthy) = decide (k ∉ keys delta) := by
  unfold JsObject.get
  cases hl : delta.lookup k with
  | none =>
    have hmem : ¬ k ∈ keys delta := by
      rw [← lookup_isSome_iff_mem_keys, hl]
      simp
    simp [hmem, hk, JsVal.truthy]
  | some v =>
    have hmem : k ∈ keys delta := by
      rw [← lookup_isSome_iff_mem_keys, hl]
      rfl
    have hv := htruthy (k, v) (lookup_mem delta k v hl)
    simp only at hv
    simp [hmem, hv]

/-- The entries of the rows of `_renderModifications` for an applied blueprint with a table
for its grade, when no key of the two tables names an inherited member. -/
theorem renderModifications_entries (cat : Catalog) (env : Env) (m : Facade) (b : String)
    (g : Nat) (info : BlueprintInfo) (delta : JsObject) (mi : ModuleInfo)
    (hb : m.blueprint = some b) (hinfo : cat.getBlueprintInfo (some b) = some info)
    (hg : m.grade = some g) (hdelta : info.features.lookup g = some delta)
    (hmi : cat.getModuleInfo m.item = some mi)
    (hplain : ∀ k ∈ keys delta ++ keys mi.props, k ∉ objectPrototypeNames) :
    ∃ rows, _renderModifications cat env m = .ok rows ∧
      rows.filterMap Element.entry =
        (keys delta).map (fun k => (shownAs env k, true)) ++
          ((keys mi.props).filter (fun k => !(delta.get k).truthy)).map
            (fun k => (shownAs env k, false)) := by
  have h1 := mapM_mkModification env (keys delta) true
    (fun k hk => hplain k (List.mem_append_left _ hk))
  have h2 := mapM_mkModification env
    ((keys mi.props).filter (fun k => !(delta.get k).truthy)) false
    (fun k hk => hplain k (List.mem_append_right _ (List.mem_of_mem_filter hk)))
  refine ⟨((keys delta).map (fun k =>
      modificationRows env (shownAs env k) (setterFor env k) true)).flatten ++
    (((keys mi.props).filter (fun k => !(delta.get k).truthy)).map (fun k =>
      modificationRows env (shownAs env k) (setterFor env k) false)).flatten, ?_, ?_⟩
  · simp only [_renderModifications, hb, hinfo, hg, hdelta, hmi, Option.some_bind, h1, h2,
      filter_modificationRows]
  · rw [List.filterMap_append, entries_modificationRows, entries_modificationRows]

theorem computeDisplayList_keys (delta base : JsObject) :
    (computeDisplayList delta base).map Prod.fst =
      keys delta ++ (keys base).filter (fun k => decide (k ∉ keys delta)) := by
  simp [computeDisplayList, Function.comp_def]

theorem computeDisplayList_keys_nodup (delta base : JsObject) (hd : (keys delta).Nodup)
    (hb : (keys base).Nodup) : ((computeDisplayList delta base).map Prod.fst).Nodup := by
  rw [computeDisplayList_keys, List.nodup_append]
  refine ⟨hd, hb.filter _, ?_⟩
  intro k hk hk'
  simp only [List.mem_filter, decide_eq_true_eq] at hk'
  exact hk'.2 hk

/-- The entries for a table whose entries are all truthy: those of the display list of the
specification, under the names `_mkModification` emits. -/
theorem renderModifications_compute (cat : Catalog) (env : Env) (m : Facade) (b : String)
    (g : Nat) (info : BlueprintInfo) (delta : JsObject) (mi : ModuleInfo)
    (hb : m.blueprint = some b) (hinfo : cat.getBlueprintInfo (some b) = some info)
    (hg : m.grade = some g) (hdelta : info.features.lookup g = some delta)
    (hmi : cat.getModuleInfo m.item = some mi)
    (hplain : ∀ k ∈ keys delta ++ keys mi.props, k ∉ objectPrototypeNames)
    (htruthy : ∀ kv ∈ delta, kv.2.truthy = true) :
    ∃ rows, _renderModifications cat env m = .ok rows ∧
      rows.filterMap Element.entry =
        (computeDisplayList delta mi.props).map (fun e => (shownAs env e.1, e.2)) := by
  obtain ⟨rows, hrows, hentries⟩ :=
    renderModifications_entries cat env m b g info delta mi hb hinfo hg hdelta hmi hplain
  refine ⟨rows, hrows, ?_⟩
  rw [hentries]
  have hfilter : (keys mi.props).filter (fun k => !(delta.get k).truthy) =
      (keys mi.props).filter (fun k => decide (k ∉ keys delta)) := by
    apply List.filter_congr
    intro k hk
    exact get_truthy_plain delta k (hplain k (List.mem_append_right _ hk)) htruthy
  rw [hfilter]
  simp [computeDisplayList, Function.comp_def]

/-- The read `blueprintFeatures[prop]` finds inherited members: a base attribute named
`constructor` is left out although the delta table has no such key, and a feature named
`toString` makes `_mkModification` throw. -/
theorem renderModifications_inherited_name :
    (_renderModifications
        (exampleCatalog [("damage", .obj 0)] [("constructor", .num 1), ("range", .num 500)])
        plainEnv (overchargedLaser (.num 1) [])).map
        (fun rows => rows.filterMap Element.entry) =
      .ok [("damage", true), ("range", false)] ∧
    _renderModifications (exampleCatalog [("toString", .obj 0)] exampleProps) plainEnv
        (overchargedLaser (.num 1) []) = .error .TypeError :=
  ⟨rfl, rfl⟩

/-! ## The merge: the claims -/

/-- C1, the code at the failing input: with the delta table `{damage: 0}` of `Overcharged`
grade 3 and the base attributes `{damage: 10, range: 500}`, `_renderModifications` builds the
entries (damage, template), (damage, base), (range, base), two of them under the React key
`damage`: the base key `damage` is a key of the delta table and is emitted all the same.
The display list of the specification is (damage, template), (range, base). -/
theorem renderModifications_falsy_delta_entry :
    _renderModifications (exampleCatalog [("damage", .num 0)] exampleProps) plainEnv
        (overchargedLaser (.num 1) []) =
      .ok [Element.th "th-damage" "damage",
           Element.Modification "damage" "damage" Setter.moduleSet true JsVal.undefined,
           Element.th "th-damage" "damage",
           Element.Modification "damage" "damage" Setter.moduleSet false JsVal.undefined,
           Element.th "th-range" "range",
           Element.Modification "range" "range" Setter.moduleSet false JsVal.undefined] ∧
    (_renderModifications (exampleCatalog [("damage", .num 0)] exampleProps) plainEnv
        (overchargedLaser (.num 1) [])).map (fun rows => rows.filterMap Element.entry) =
      .ok [("damage", true), ("damage", false), ("range", false)] ∧
    computeDisplayList [("damage", .num 0)] exampleProps =
      [("damage", true), ("range", false)] ∧
    keys [("damage", JsVal.num 0)] = ["damage"] ∧
    (!(JsObject.get [("damage", JsVal.num 0)] "damage").truthy) = true :=
  ⟨rfl, rfl, rfl, rfl, rfl⟩

/-- C2, counterexample: two ways in which a name occurs twice.  With `SHOW` showing
`kineticeffectiveness` as `kineticresistance`, the delta table `{kineticeffectiveness: obj}`
and the base attributes `{kineticeffectiveness: 1, kineticresistance: 0}`, the name
`kineticresistance` is emitted highlighted for the delta key and again for the base key; and
with an empty `SHOW`, the delta table `{damage: 0}` and the base attributes
`{damage: 10, range: 500}`, the base attribute `damage` is not suppressed. -/
theorem renderModifications_repeated_name :
    (∃ rows,
      _renderModifications
          (exampleCatalog [("kineticeffectiveness", .obj 0)]
            [("kineticeffectiveness", .num 1), ("kineticresistance", .num 0)])
          resistanceEnv (overchargedLaser (.num 1) []) = .ok rows ∧
      rows.filterMap Element.entry =
        [("kineticresistance", true), ("kineticresistance", false)] ∧
      names rows = ["kineticresistance", "kineticresistance"] ∧ ¬ (names rows).Nodup) ∧
    (∃ rows,
      _renderModifications (exampleCatalog [("damage", .num 0)] exampleProps) plainEnv
          (overchargedLaser (.num 1) []) = .ok rows ∧
      names rows = ["damage", "damage", "range"] ∧ ¬ (names rows).Nodup) := by
  constructor
  · exact ⟨_, rfl, rfl, rfl, by decide⟩
  · exact ⟨_, rfl, rfl, by decide⟩

/-- C2, amended: for a delta table whose entries are all truthy, where no key of the two
tables names a member inherited from `Object.prototype`, the attribute keys of the entries
of `_renderModifications` (the names before the `SHOW` substitution) are pairwise distinct,
and the names `_mkModification` emits are pairwise distinct when the `SHOW` substitution maps
distinct keys of the two tables to distinct names; then no name emitted for a key of the
delta table is emitted for a base attribute too. -/
theorem renderModifications_names_nodup (cat : Catalog) (env : Env) (m : Facade)
    (b : String) (g : Nat) (info : BlueprintInfo) (delta : JsObject) (mi : ModuleInfo)
    (hb : m.blueprint = some b) (hinfo : cat.getBlueprintInfo (some b) = some info)
    (hg : m.grade = some g) (hdelta : info.features.lookup g = some delta)
    (hmi : cat.getModuleInfo m.item = some mi)
    (hd : (keys delta).Nodup) (hbase : (keys mi.props).Nodup)
    (htruthy : ∀ kv ∈ delta, kv.2.truthy = true)
    (hplain : ∀ k ∈ keys delta ++ keys mi.props, k ∉ objectPrototypeNames) :
    ∃ rows, _renderModifications cat env m = .ok rows ∧
      rows.filterMap Element.entry =
        (computeDisplayList delta mi.props).map (fun e => (shownAs env e.1, e.2)) ∧
      ((computeDisplayList delta mi.props).map Prod.fst).Nodup ∧
      ((∀ x ∈ keys delta ++ keys mi.props, ∀ y ∈ keys delta ++ keys mi.props,
          shownAs env x = shownAs env y → x = y) →
        (names rows).Nodup ∧
        ∀ k ∈ keys delta, (shownAs env k, false) ∉ rows.filterMap Element.entry) := by
  obtain ⟨rows, hrows, hentries⟩ := renderModifications_compute cat env m b g info delta mi
    hb hinfo hg hdelta hmi hplain htruthy
  refine ⟨rows, hrows, hentries, computeDisplayList_keys_nodup delta mi.props hd hbase, ?_⟩
  intro hinj
  have hsub : ∀ x ∈ (computeDisplayList delta mi.props).map Prod.fst,
      x ∈ keys delta ++ keys mi.props := by
    intro x hx
    rw [computeDisplayList_keys] at hx
    rcases List.mem_append.1 hx with h | h
    · exact List.mem_append_left _ h
    · exact List.mem_append_right _ (List.mem_of_mem_filter h)
  have hnames : names rows =
      ((computeDisplayList delta mi.props).map Prod.fst).map (shownAs env) := by
    unfold names
    rw [hentries, List.map_map, List.map_map]
    rfl
  have hnd : (names rows).Nodup := by
    rw [hnames]
    exact List.Nodup.map_on
      (fun x hx y hy hxy => hinj x (hsub x hx) y (hsub y hy) hxy)
      (computeDisplayList_keys_nodup delta mi.props hd hbase)
  refine ⟨hnd, ?_⟩
  intro k hk hmem
  rw [hentries] at hmem
  obtain ⟨e, he, hee⟩ := List.mem_map.1 hmem
  simp only [Prod.mk.injEq] at hee
  obtain ⟨hname, htag⟩ := hee
  have he1 : e.1 ∈ (computeDisplayList delta mi.props).map Prod.fst :=
    List.mem_map.2 ⟨e, he, rfl⟩
  have hkeq : e.1 = k :=
    hinj e.1 (hsub e.1 he1) k (List.mem_append_left _ hk) hname
  unfold computeDisplayList at he
  rcases List.mem_append.1 he with h | h
  · obtain ⟨x, _, rfl⟩ := List.mem_map.1 h
    simp at htag
  · obtain ⟨x, hx, rfl⟩ := List.mem_map.1 h
    simp only [List.mem_filter, decide_eq_true_eq] at hx
    have hxk : x = k := hkeq
    exact hx.2 (hxk ▸ hk)

/-- C2, witness: the scenario of the specification with an empty `SHOW` table. -/
theorem renderModifications_names_nodup_witness :
    ∃ rows,
      _renderModifications (exampleCatalog [("damage", .obj 0)] exampleProps) plainEnv
          (overchargedLaser (.num 1) []) = .ok rows ∧
      rows.filterMap Element.entry =
        (computeDisplayList [("damage", .obj 0)] exampleProps).map
          (fun e => (shownAs plainEnv e.1, e.2)) ∧
      ((computeDisplayList [("damage", .obj 0)] exampleProps).map Prod.fst).Nodup ∧
      (names rows).Nodup ∧
      ∀ k ∈ keys [("damage", JsVal.obj 0)],
        (shownAs plainEnv k, false) ∉ rows.filterMap Element.entry :=
  match renderModifications_names_nodup (exampleCatalog [("damage", .obj 0)] exampleProps)
    plainEnv (overchargedLaser (.num 1) []) "Overcharged" 3
    { features := [(3, [("damage", .obj 0)])] } [("damage", .obj 0)] { props := exampleProps }
    rfl rfl rfl rfl rfl (by decide) (by decide) (by simp [JsVal.truthy]) (by decide) with
  | ⟨rows, hrows, heq, hkeys, hnames⟩ =>
    ⟨rows, hrows, heq, hkeys, hnames (fun x _ y _ h => by simpa [shownAs, plainEnv] using h)⟩

/-- C9, counterexample: for the item of the scenario, with base attributes
`{damage: 10, range: 500}` and no blueprint, `render` shows the blueprint picker, which
holds the one entry for grade 3 of `Overcharged`, and no attribute view: no display list is
built. -/
theorem no_display_list_for_plain_item :
    mode (plainLaser []) (constructor (plainLaser [])).state = .TEMPLATE_PICK ∧
    render (exampleCatalog [("damage", .obj 0)] exampleProps) plainEnv
        (constructor (plainLaser [])) =
      .ok (.blueprints [("Overcharged",
        [{ dataId := "Overcharged:3", active := false, ref := false,
           onClick := .chooseBlueprint "Overcharged" 3 }])]) ∧
    (∀ blueprintsMenu specialsMenu cells rows,
      render (exampleCatalog [("damage", .obj 0)] exampleProps) plainEnv
          (constructor (plainLaser [])) ≠
        .ok (.modifications blueprintsMenu specialsMenu cells rows)) := by
  have hrender : render (exampleCatalog [("damage", .obj 0)] exampleProps) plainEnv
      (constructor (plainLaser [])) =
      .ok (.blueprints [("Overcharged",
        [{ dataId := "Overcharged:3", active := false, ref := false,
           onClick := .chooseBlueprint "Overcharged" 3 }])]) := rfl
  refine ⟨rfl, hrender, ?_⟩
  intro blueprintsMenu specialsMenu cells rows h
  rw [hrender] at h
  cases h

/-- C9, amended: for an item without blueprint, `render` selects the blueprint picker in
every state and never the attribute view, so no display list is built: what is rendered is
the result of `_renderBlueprints`.  A call of `_renderModifications` for such an item yields
no rows when the catalog has no record for the undefined blueprint. -/
theorem render_without_blueprint (cat : Catalog) (env : Env) (m : Facade)
    (hb : m.blueprint = none) :
    (∀ state, mode m state = .TEMPLATE_PICK) ∧
    (∀ c : Component, c.m = m → ∀ v, render cat env c = .ok v →
      ∃ groups, v = .blueprints groups ∧ _renderBlueprints cat env m = .ok groups) ∧
    (cat.getBlueprintInfo none = none → ∀ rows, _renderModifications cat env m ≠ .ok rows) := by
  have hmode : ∀ state, mode m state = .TEMPLATE_PICK := by
    intro state
    simp [mode, Facade.getBlueprint, hb, optStr, JsVal.truthy]
  refine ⟨hmode, ?_, ?_⟩
  · intro c hc v hv
    subst hc
    unfold render at hv
    rw [hmode] at hv
    simp only at hv
    cases hgroups : _renderBlueprints cat env c.m with
    | error e =>
      rw [hgroups] at hv
      cases hv
    | ok groups =>
      rw [hgroups] at hv
      exact ⟨groups, by cases hv; rfl, rfl⟩
  · intro hcat rows hrows
    simp [_renderModifications, hb, hcat] at hrows

/-- C9, witness: the item of the scenario, without blueprint. -/
theorem render_without_blueprint_witness :
    mode (plainLaser []) (constructor (plainLaser [])).state = .TEMPLATE_PICK ∧
    (∀ v, render (exampleCatalog [("damage", .obj 0)] exampleProps) plainEnv
        (constructor (plainLaser [])) = .ok v → ∃ groups, v = .blueprints groups) ∧
    (∀ rows, _renderModifications (exampleCatalog [("damage", .obj 0)] exampleProps) plainEnv
        (plainLaser []) ≠ .ok rows) :=
  match render_without_blueprint (exampleCatalog [("damage", .obj 0)] exampleProps) plainEnv
    (plainLaser []) rfl with
  | ⟨hmode, hview, hrows⟩ =>
    ⟨hmode _,
      fun v hv =>
        match hview (constructor (plainLaser [])) rfl v hv with
        | ⟨groups, hgroups, _⟩ => ⟨groups, hgroups⟩,
      hrows rfl⟩

/-! ## The roll cells -/

theorem truncate_double (q : ℚ) (h0 : 0 ≤ q) : truncate (q / (1 / 2)) = ⌊2 * q⌋ := by
  have h : q / (1 / 2) = 2 * q := by ring
  rw [h]
  unfold truncate
  rw [if_pos (by positivity)]

theorem rem_half_eq_zero_iff (q : ℚ) (h0 : 0 ≤ q) (h1 : q ≤ 1) :
    q - 1 / 2 * (truncate (q / (1 / 2)) : ℚ) = 0 ↔ q = 0 ∨ q = 1 / 2 ∨ q = 1 := by
  rw [truncate_double q h0]
  constructor
  · intro h
    have hn0 : 0 ≤ ⌊2 * q⌋ := Int.floor_nonneg.2 (by positivity)
    have hn2 : ⌊2 * q⌋ ≤ 2 := by
      have : (⌊2 * q⌋ : ℚ) ≤ 2 := le_trans (Int.floor_le _) (by linarith)
      exact_mod_cast this
    have hq : q = (⌊2 * q⌋ : ℚ) / 2 := by linarith
    generalize ⌊2 * q⌋ = n at hn0 hn2 hq
    interval_cases n
    · left
      rw [hq]
      norm_num
    · right
      left
      rw [hq]
      norm_num
    · right
      right
      rw [hq]
      norm_num
  · rintro (rfl | rfl | rfl)
    · norm_num
    · norm_num
    · norm_num

/-- C5: the cell `0%` is active exactly for the value 0, `50%` exactly for 0.5 and `100%`
exactly for 1; every other number of the interval from 0 to 1 activates the cell `random`
alone; so every number from 0 to 1 activates exactly one of the four cells. -/
theorem rollCells_classification (p : Progress) :
    ((rollCells p).worst = true ↔ p = .num 0) ∧
    ((rollCells p).half = true ↔ p = .num (1 / 2)) ∧
    ((rollCells p).best = true ↔ p = .num 1) ∧
    (∀ q : ℚ, p = .num q → 0 ≤ q → q < 1 → q ≠ 0 → q ≠ 1 / 2 →
      rollCells p = { worst := false, half := false, best := false, random := true }) ∧
    (∀ q : ℚ, p = .num q → 0 ≤ q → q ≤ 1 → (rollCells p).activeCount = 1) := by
  have hrandom : ∀ q : ℚ, 0 ≤ q → q ≤ 1 →
      ((rollCells (.num q)).random = true ↔ ¬ (q = 0 ∨ q = 1 / 2 ∨ q = 1)) := by
    intro q h0 h1
    rw [← rem_half_eq_zero_iff q h0 h1]
    simp [rollCells, Progress.rem, Progress.toNumber, Progress.strictEq]
  refine ⟨?_, ?_, ?_, ?_, ?_⟩
  · cases p <;> simp [rollCells, Progress.strictEq]
  · cases p <;> simp [rollCells, Progress.strictEq]
  · cases p <;> simp [rollCells, Progress.strictEq]
  · rintro q rfl h0 h1 hq0 hqh
    have hq1 : q ≠ 1 := ne_of_lt h1
    have hr := (hrandom q h0 h1.le).2 (fun h => h.elim hq0 (fun h => h.elim hqh hq1))
    have hw : (rollCells (.num q)).worst = false := by simp [rollCells, Progress.strictEq, hq0]
    have hh : (rollCells (.num q)).half = false := by
      simp only [rollCells, Progress.strictEq]
      simpa using hqh
    have hbst : (rollCells (.num q)).best = false := by
      simp [rollCells, Progress.strictEq, hq1]
    cases hc : rollCells (.num q) with
    | mk w h b r =>
      rw [hc] at hr hw hh hbst
      simp only at hr hw hh hbst
      rw [hr, hw, hh, hbst]
  · rintro q rfl h0 h1
    have hr := hrandom q h0 h1
    by_cases hq0 : q = 0
    · subst hq0
      have hr' : (rollCells (.num 0)).random = false := by
        simpa using hr
      simp only [RollCells.activeCount, hr']
      norm_num [rollCells, Progress.strictEq]
    · by_cases hqh : q = 1 / 2
      · subst hqh
        have hr' : (rollCells (.num (1 / 2))).random = false := by
          simpa using hr
        simp only [RollCells.activeCount, hr']
        norm_num [rollCells, Progress.strictEq]
      · by_cases hq1 : q = 1
        · subst hq1
          have hr' : (rollCells (.num 1)).random = false := by
            simpa using hr
          simp only [RollCells.activeCount, hr']
          norm_num [rollCells, Progress.strictEq]
        · have hr' : (rollCells (.num q)).random = true :=
            hr.2 (fun h => h.elim hq0 (fun h => h.elim hqh hq1))
          have hqh' : ¬ q = 2⁻¹ := by simpa using hqh
          simp only [RollCells.activeCount, hr']
          simp [rollCells, Progress.strictEq, hq0, hqh', hq1]

/-- C5, witness: the value 0.73 activates the cell `random` alone. -/
theorem rollCells_classification_witness :
    rollCells (.num (73 / 100)) =
      { worst := false, half := false, best := false, random := true } ∧
    (rollCells (.num (73 / 100))).activeCount = 1 :=
  ⟨(rollCells_classification (.num (73 / 100))).2.2.2.1 (73 / 100) rfl (by norm_num)
      (by norm_num) (by norm_num) (by norm_num),
    (rollCells_classification (.num (73 / 100))).2.2.2.2 (73 / 100) rfl (by norm_num)
      (by norm_num)⟩

/-! ## The component: lemmas -/

theorem renderSpecials_onClick (m : Facade) (it : Clickable) (hit : it ∈ _renderSpecials m) :
    ∃ special, it.onClick = .chooseSpecial special := by
  unfold _renderSpecials at hit
  simp only at hit
  split at hit
  · rcases List.mem_cons.1 hit with h | h
    · exact ⟨none, by rw [h]⟩
    · obtain ⟨e, _, rfl⟩ := List.mem_map.1 h
      exact ⟨some e, rfl⟩
  · obtain ⟨e, _, rfl⟩ := List.mem_map.1 hit
    exact ⟨some e, rfl⟩

theorem render_attribute_view (cat : Catalog) (env : Env) (c : Component) (v : View)
    (hmode : mode c.m c.state = .ATTRIBUTE_VIEW) (hv : render cat env c = .ok v) :
    ∃ blueprintsMenu specialsMenu cells rows,
      v = .modifications blueprintsMenu specialsMenu cells rows ∧
      _renderModifications cat env c.m = .ok rows := by
  unfold render at hv
  rw [hmode] at hv
  simp only at hv
  cases hrows : _renderModifications cat env c.m with
  | error e =>
    rw [hrows] at hv
    cases hv
  | ok rows =>
    rw [hrows] at hv
    cases hv
    exact ⟨_, _, _, rows, rfl, rfl⟩

theorem offers_chooseBlueprint_mode (cat : Catalog) (env : Env) (c : Component) (v : View)
    (b : String) (g : Nat) (hv : render cat env c = .ok v)
    (hoff : v.offers (.chooseBlueprint b g) = true) : mode c.m c.state = .TEMPLATE_PICK := by
  cases hmode : mode c.m c.state with
  | TEMPLATE_PICK => rfl
  | SPECIAL_PICK =>
    unfold render at hv
    rw [hmode] at hv
    cases hv
    simp only [View.offers, List.any_eq_true, decide_eq_true_eq] at hoff
    obtain ⟨it, hit, hclick⟩ := hoff
    obtain ⟨special, hs⟩ := renderSpecials_onClick c.m it hit
    rw [hs] at hclick
    cases hclick
  | ATTRIBUTE_VIEW =>
    obtain ⟨_, _, _, _, rfl, _⟩ := render_attribute_view cat env c v hmode hv
    simp [View.offers] at hoff

theorem renderSpecials_offers (m : Facade) (special : Option String)
    (hne : m.applicableExperimentals ≠ [])
    (hchoice : special = none ∨ ∃ e ∈ m.applicableExperimentals, special = some e) :
    (View.specials (_renderSpecials m)).offers (.chooseSpecial special) = true := by
  have hlen : (m.applicableExperimentals.map (fun experimental =>
      ({ dataId := experimental
         active := decide (some experimental = m.experimental)
         ref := decide (some experimental = m.experimental)
         onClick := Event.chooseSpecial (some experimental) } : Clickable))).length ≠ 0 := by
    simpa using hne
  simp only [View.offers, _renderSpecials, if_pos hlen, List.any_eq_true, decide_eq_true_eq]
  rcases hchoice with rfl | ⟨e, he, rfl⟩
  · exact ⟨_, List.mem_cons_self _ _, rfl⟩
  · exact ⟨_, List.mem_cons_of_mem _ (List.mem_map.2 ⟨e, he, rfl⟩), rfl⟩

/-! ## The component: the claims -/

/-- C8: the constructor sets `blueprintMenuOpened` to the negation of `m.getBlueprint()` and
`specialMenuOpened` to false, so `render` shows the blueprint picker when the item has no
blueprint and the attribute view when it has one, never the special picker. -/
theorem constructor_mode (m : Facade) :
    (constructor m).m = m ∧
    (constructor m).state.blueprintMenuOpened = !m.getBlueprint.truthy ∧
    (constructor m).state.specialMenuOpened = false ∧
    mode (constructor m).m (constructor m).state =
      (if m.getBlueprint.truthy then Mode.ATTRIBUTE_VIEW else Mode.TEMPLATE_PICK) ∧
    mode (constructor m).m (constructor m).state ≠ .SPECIAL_PICK ∧
    (m.blueprint = none → mode (constructor m).m (constructor m).state = .TEMPLATE_PICK) ∧
    (∀ b, m.blueprint = some b → b ≠ "" →
      mode (constructor m).m (constructor m).state = .ATTRIBUTE_VIEW) := by
  have hmode : mode (constructor m).m (constructor m).state =
      (if m.getBlueprint.truthy then Mode.ATTRIBUTE_VIEW else Mode.TEMPLATE_PICK) := by
    cases h : m.getBlueprint.truthy <;> simp [mode, constructor, h]
  refine ⟨rfl, rfl, rfl, hmode, ?_, ?_, ?_⟩
  · rw [hmode]
    cases m.getBlueprint.truthy <;> simp
  · intro hb
    rw [hmode]
    simp [Facade.getBlueprint, hb, optStr, JsVal.truthy]
  · intro b hb hne
    rw [hmode]
    simp [Facade.getBlueprint, hb, optStr, JsVal.truthy, hne]

/-- C8, witness: the item of the scenario without blueprint, and with `Overcharged`. -/
theorem constructor_mode_witness :
    mode (constructor (plainLaser [])).m (constructor (plainLaser [])).state =
      .TEMPLATE_PICK ∧
    mode (constructor (overchargedLaser (.num 1) [])).m
      (constructor (overchargedLaser (.num 1) [])).state = .ATTRIBUTE_VIEW :=
  ⟨(constructor_mode (plainLaser [])).2.2.2.2.2.1 rfl,
    (constructor_mode (overchargedLaser (.num 1) [])).2.2.2.2.2.2 "Overcharged" rfl
      (by decide)⟩

/-- C3: a click on a grade of a blueprint is offered in the blueprint picker only; it issues
the one command `setBlueprint(blueprint, grade, 1)`, closes the blueprint menu and opens the
special menu; for every item that then reports a blueprint, `render` selects the special
picker, whatever the applicable experimentals of the item are. -/
theorem chooseBlueprint_advances (cat : Catalog) (env : Env) (c : Component) (v : View)
    (b : String) (g : Nat) (hv : render cat env c = .ok v)
    (hoff : v.offers (.chooseBlueprint b g) = true) :
    mode c.m c.state = .TEMPLATE_PICK ∧
    step cat env c (.chooseBlueprint b g) = some (c.dispatch (.chooseBlueprint b g)) ∧
    onClick c.state (.chooseBlueprint b g) =
      [.command (.setBlueprint b g (.num 1)),
       .setState { blueprintMenuOpened := some false, specialMenuOpened := some true }] ∧
    commands (onClick c.state (.chooseBlueprint b g)) = [.setBlueprint b g (.num 1)] ∧
    (c.dispatch (.chooseBlueprint b g)).state.blueprintMenuOpened = false ∧
    (c.dispatch (.chooseBlueprint b g)).state.specialMenuOpened = true ∧
    (∀ m' : Facade, m'.getBlueprint.truthy = true →
      mode m' (c.dispatch (.chooseBlueprint b g)).state = .SPECIAL_PICK) := by
  have hstate : (c.dispatch (.chooseBlueprint b g)).state =
      { c.state with blueprintMenuOpened := false, specialMenuOpened := true } := rfl
  refine ⟨offers_chooseBlueprint_mode cat env c v b g hv hoff, ?_, rfl, rfl, rfl, rfl, ?_⟩
  · simp [step, hv, hoff]
  · intro m' hm'
    rw [hstate]
    simp [mode, hm']

/-- C3, witness: the item of the scenario, to which no experimental is applicable, and the
click on grade 3 of `Overcharged`. -/
theorem chooseBlueprint_advances_witness :
    step (exampleCatalog [("damage", .obj 0)] exampleProps) plainEnv
        (constructor (plainLaser [])) (.chooseBlueprint "Overcharged" 3) =
      some ((constructor (plainLaser [])).dispatch (.chooseBlueprint "Overcharged" 3)) ∧
    commands (onClick (constructor (plainLaser [])).state (.chooseBlueprint "Overcharged" 3)) =
      [.setBlueprint "Overcharged" 3 (.num 1)] ∧
    mode (overchargedLaser (.num 1) [])
      ((constructor (plainLaser [])).dispatch (.chooseBlueprint "Overcharged" 3)).state =
      .SPECIAL_PICK ∧
    mode (overchargedLaser (.num 1) ["Effect X"])
      ((constructor (plainLaser [])).dispatch (.chooseBlueprint "Overcharged" 3)).state =
      .SPECIAL_PICK :=
  match chooseBlueprint_advances (exampleCatalog [("damage", .obj 0)] exampleProps) plainEnv
    (constructor (plainLaser []))
    (.blueprints [("Overcharged",
      [{ dataId := "Overcharged:3", active := false, ref := false,
         onClick := .chooseBlueprint "Overcharged" 3 }])])
    "Overcharged" 3 rfl rfl with
  | ⟨_, hstep, _, hcmd, _, _, hnext⟩ =>
    ⟨hstep, hcmd, hnext (overchargedLaser (.num 1) []) (by decide),
      hnext (overchargedLaser (.num 1) ["Effect X"]) (by decide)⟩

/-- C4, the code at the failing input: for the item of the scenario, to which no
experimental is applicable, the click on grade 3 of `Overcharged` leaves `render` in the
special picker, which is empty, and no click is handled any more. -/
theorem chooseBlueprint_without_experimentals :
    step (exampleCatalog [("damage", .obj 0)] exampleProps) plainEnv
        (constructor (plainLaser [])) (.chooseBlueprint "Overcharged" 3) =
      some ((constructor (plainLaser [])).dispatch (.chooseBlueprint "Overcharged" 3)) ∧
    ((constructor (plainLaser [])).dispatch (.chooseBlueprint "Overcharged" 3)).m.applicableExperimentals
      = [] ∧
    mode ((constructor (plainLaser [])).dispatch (.chooseBlueprint "Overcharged" 3)).m
      ((constructor (plainLaser [])).dispatch (.chooseBlueprint "Overcharged" 3)).state =
      .SPECIAL_PICK ∧
    render (exampleCatalog [("damage", .obj 0)] exampleProps) plainEnv
        ((constructor (plainLaser [])).dispatch (.chooseBlueprint "Overcharged" 3)) =
      .ok (.specials []) ∧
    (∀ ev, step (exampleCatalog [("damage", .obj 0)] exampleProps) plainEnv
        ((constructor (plainLaser [])).dispatch (.chooseBlueprint "Overcharged" 3)) ev =
      none) := by
  have hrender : render (exampleCatalog [("damage", .obj 0)] exampleProps) plainEnv
      ((constructor (plainLaser [])).dispatch (.chooseBlueprint "Overcharged" 3)) =
      .ok (.specials []) := rfl
  refine ⟨rfl, rfl, rfl, hrender, ?_⟩
  intro ev
  simp [step, hrender, View.offers]

/-- C6: in the attribute view, the click on reset issues the one command
`resetEngineering`, sets `selectedModRef` and `selectedSpecialRef` to null and
`state.blueprintProgress` to undefined; the item then reports no blueprint, no grade, no
experimental and an undefined progress, and `render` selects the blueprint picker. -/
theorem reset_clears (cat : Catalog) (env : Env) (c : Component)
    (hmode : mode c.m c.state = .ATTRIBUTE_VIEW) :
    (∀ v, render cat env c = .ok v → step cat env c .reset = some (c.dispatch .reset)) ∧
    onClick c.state .reset =
      [.command .resetEngineering, .setSelectedModRef none, .setSelectedSpecialRef none,
       .tooltip,
       .setState { blueprintMenuOpened := some true, blueprintProgress := some .undefined }] ∧
    commands (onClick c.state .reset) = [.resetEngineering] ∧
    (c.dispatch .reset).m = c.m.exec .resetEngineering ∧
    (c.dispatch .reset).selectedModRef = none ∧
    (c.dispatch .reset).selectedSpecialRef = none ∧
    (c.dispatch .reset).state.blueprintProgress = .undefined ∧
    ((c.dispatch .reset).m.getBlueprint, (c.dispatch .reset).m.grade,
        (c.dispatch .reset).m.getExperimental, (c.dispatch .reset).m.getBlueprintProgress) =
      (.undefined, none, .undefined, .undefined) ∧
    mode (c.dispatch .reset).m (c.dispatch .reset).state = .TEMPLATE_PICK ∧
    (∀ m' : Facade, mode m' (c.dispatch .reset).state = .TEMPLATE_PICK) := by
  have hstate : (c.dispatch .reset).state =
      { c.state with blueprintMenuOpened := true, blueprintProgress := .undefined } := rfl
  have hany : ∀ m' : Facade, mode m' (c.dispatch .reset).state = .TEMPLATE_PICK := by
    intro m'
    rw [hstate]
    simp [mode]
  refine ⟨?_, rfl, rfl, rfl, rfl, rfl, rfl, rfl, hany _, hany⟩
  intro v hv
  obtain ⟨_, _, _, _, rfl, _⟩ := render_attribute_view cat env c v hmode hv
  simp [step, hv, View.offers]

/-- C6, witness: the item of the scenario with `Overcharged` grade 3 at roll quality 0.5. -/
theorem reset_clears_witness :
    commands (onClick (constructor (overchargedLaser (.num (1 / 2)) ["Effect X"])).state
      .reset) = [.resetEngineering] ∧
    ((constructor (overchargedLaser (.num (1 / 2)) ["Effect X"])).dispatch .reset).m.blueprint =
      none ∧
    ((constructor (overchargedLaser (.num (1 / 2)) ["Effect X"])).dispatch
      .reset).state.blueprintProgress = .undefined ∧
    mode ((constructor (overchargedLaser (.num (1 / 2)) ["Effect X"])).dispatch .reset).m
      ((constructor (overchargedLaser (.num (1 / 2)) ["Effect X"])).dispatch .reset).state =
      .TEMPLATE_PICK :=
  match reset_clears (exampleCatalog [("damage", .obj 0)] exampleProps) plainEnv
    (constructor (overchargedLaser (.num (1 / 2)) ["Effect X"])) rfl with
  | ⟨_, _, hcmd, _, _, _, hprogress, _, hnext, _⟩ => ⟨hcmd, rfl, hprogress, hnext⟩

/-- C7: in the special picker, the click on an applicable experimental or on the entry
`none` issues the one command `setExperimental` with that experimental, or with undefined,
closes the special menu and leaves `blueprintMenuOpened` as it is, so `render` selects the
attribute view; blueprint, grade and the rows of `_renderModifications`, which do not depend
on the experimental, stay as they are. -/
theorem specialSelected_returns (cat : Catalog) (env : Env) (c : Component)
    (special : Option String) (hmode : mode c.m c.state = .SPECIAL_PICK)
    (hchoice : special = none ∨ ∃ e ∈ c.m.applicableExperimentals, special = some e) :
    (c.m.applicableExperimentals ≠ [] →
      step cat env c (.chooseSpecial special) = some (c.dispatch (.chooseSpecial special))) ∧
    onClick c.state (.chooseSpecial special) =
      [.command (.setExperimental special), .setState { specialMenuOpened := some false }] ∧
    commands (onClick c.state (.chooseSpecial special)) = [.setExperimental special] ∧
    (c.dispatch (.chooseSpecial special)).m = c.m.exec (.setExperimental special) ∧
    (c.dispatch (.chooseSpecial special)).m.experimental = special ∧
    (c.dispatch (.chooseSpecial special)).state.specialMenuOpened = false ∧
    (c.dispatch (.chooseSpecial special)).state.blueprintMenuOpened =
      c.state.blueprintMenuOpened ∧
    (∀ m' : Facade, m'.getBlueprint.truthy = true →
      mode m' (c.dispatch (.chooseSpecial special)).state = .ATTRIBUTE_VIEW) ∧
    mode (c.dispatch (.chooseSpecial special)).m (c.dispatch (.chooseSpecial special)).state =
      .ATTRIBUTE_VIEW ∧
    (c.dispatch (.chooseSpecial special)).m.blueprint = c.m.blueprint ∧
    (c.dispatch (.chooseSpecial special)).m.grade = c.m.grade ∧
    (∀ experimental : Option String,
      _renderModifications cat env { c.m with experimental := experimental } =
        _renderModifications cat env c.m) ∧
    _renderModifications cat env (c.dispatch (.chooseSpecial special)).m =
      _renderModifications cat env c.m := by
  have hstate : (c.dispatch (.chooseSpecial special)).state =
      { c.state with specialMenuOpened := false } := rfl
  have hm : (c.dispatch (.chooseSpecial special)).m.getBlueprint = c.m.getBlueprint := rfl
  have hopen : c.state.blueprintMenuOpened = false ∧ c.m.getBlueprint.truthy = true := by
    unfold mode at hmode
    cases hb : c.m.getBlueprint.truthy <;> cases ho : c.state.blueprintMenuOpened <;>
      simp [hb, ho] at hmode ⊢
  have hany : ∀ m' : Facade, m'.getBlueprint.truthy = true →
      mode m' (c.dispatch (.chooseSpecial special)).state = .ATTRIBUTE_VIEW := by
    intro m' hm'
    rw [hstate]
    simp [mode, hm', hopen.1]
  refine ⟨?_, rfl, rfl, rfl, rfl, rfl, rfl, hany, ?_, rfl, rfl, fun _ => rfl, rfl⟩
  · intro hne
    have hv : render cat env c = .ok (.specials (_renderSpecials c.m)) := by
      unfold render
      rw [hmode]
    simp [step, hv, renderSpecials_offers c.m special hne hchoice]
  · apply hany
    rw [hm]
    exact hopen.2

/-- C7, witness: the item of the scenario after the click on grade 3 of `Overcharged`, and
the click on the entry `none`. -/
theorem specialSelected_returns_witness :
    step (exampleCatalog [("damage", .obj 0)] exampleProps) plainEnv
        ((constructor (plainLaser ["Effect X"])).dispatch (.chooseBlueprint "Overcharged" 3))
        (.chooseSpecial none) =
      some (((constructor (plainLaser ["Effect X"])).dispatch
        (.chooseBlueprint "Overcharged" 3)).dispatch (.chooseSpecial none)) ∧
    mode (((constructor (plainLaser ["Effect X"])).dispatch
        (.chooseBlueprint "Overcharged" 3)).dispatch (.chooseSpecial none)).m
      (((constructor (plainLaser ["Effect X"])).dispatch
        (.chooseBlueprint "Overcharged" 3)).dispatch (.chooseSpecial none)).state =
      .ATTRIBUTE_VIEW :=
  match specialSelected_returns (exampleCatalog [("damage", .obj 0)] exampleProps) plainEnv
    ((constructor (plainLaser ["Effect X"])).dispatch (.chooseBlueprint "Overcharged" 3))
    none rfl (Or.inl rfl) with
  | ⟨hstep, _, _, _, _, _, _, _, hnext, _, _, _, _⟩ => ⟨hstep (by decide), hnext⟩

/-- C10, the code at the failing input: for the item of the scenario without blueprint, to
which `Effect X` is applicable, the clicks on grade 3 of `Overcharged` and then on the entry
`none` lead to the attribute view with `state.blueprintProgress` undefined, which activates
the cell `random`, while the item reports the roll quality 1.  Likewise for the item with
`Overcharged` grade 3 at roll quality 0.5: after the blueprint menu is opened, grade 3 is
clicked and the entry `none` is clicked, the cell `50%` is active while the item reports the
roll quality 1. -/
theorem displayed_progress_stale :
    (∃ c, Reachable (exampleCatalog [("damage", .obj 0)] exampleProps) plainEnv
        (plainLaser ["Effect X"]) c ∧
      mode c.m c.state = .ATTRIBUTE_VIEW ∧
      c.state.blueprintProgress = .undefined ∧
      c.m.getBlueprintProgress = .num 1 ∧
      c.state.blueprintProgress ≠ c.m.getBlueprintProgress ∧
      rollCells c.state.blueprintProgress =
        { worst := false, half := false, best := false, random := true }) ∧
    (∃ c, Reachable (exampleCatalog [("damage", .obj 0)] exampleProps) plainEnv
        (overchargedLaser (.num (1 / 2)) ["Effect X"]) c ∧
      mode c.m c.state = .ATTRIBUTE_VIEW ∧
      c.state.blueprintProgress = .num (1 / 2) ∧
      c.m.getBlueprintProgress = .num 1 ∧
      c.state.blueprintProgress ≠ c.m.getBlueprintProgress ∧
      (rollCells c.state.blueprintProgress).half = true ∧
      (rollCells c.state.blueprintProgress).best = false) := by
  constructor
  · refine ⟨((constructor (plainLaser ["Effect X"])).dispatch
      (.chooseBlueprint "Overcharged" 3)).dispatch (.chooseSpecial none), ?_, rfl, rfl, rfl,
      ?_, rfl⟩
    · exact Reachable.click _ _ (.chooseSpecial none)
        (Reachable.click _ _ (.chooseBlueprint "Overcharged" 3) Reachable.init rfl) rfl
    · intro h
      cases h
  · refine ⟨(((constructor (overchargedLaser (.num (1 / 2)) ["Effect X"])).dispatch
      .toggleBlueprintsMenu).dispatch (.chooseBlueprint "Overcharged" 3)).dispatch
      (.chooseSpecial none), ?_, rfl, rfl, rfl, ?_, ?_, ?_⟩
    · exact Reachable.click _ _ (.chooseSpecial none)
        (Reachable.click _ _ (.chooseBlueprint "Overcharged" 3)
          (Reachable.click _ _ .toggleBlueprintsMenu Reachable.init rfl) rfl) rfl
    · intro h
      have h' : Progress.num (1 / 2) = Progress.num 1 := h
      simp only [Progress.num.injEq] at h'
      norm_num at h'
    · have hp : ((((constructor (overchargedLaser (.num (1 / 2)) ["Effect X"])).dispatch
          .toggleBlueprintsMenu).dispatch (.chooseBlueprint "Overcharged" 3)).dispatch
          (.chooseSpecial none)).state.blueprintProgress = .num (1 / 2) := rfl
      rw [hp]
      simp [rollCells, Progress.strictEq]
    · have hp : ((((constructor (overchargedLaser (.num (1 / 2)) ["Effect X"])).dispatch
          .toggleBlueprintsMenu).dispatch (.chooseBlueprint "Overcharged" 3)).dispatch
          (.chooseSpecial none)).state.blueprintProgress = .num (1 / 2) := rfl
      rw [hp]
      simp [rollCells, Progress.strictEq]

end ModificationsMenu
